import Mathlib

/-!
Verification of the scsi passthrough transport layer.

This file gives a shallow embedding of the two platform backends of the
scsi package (the Linux generic-SCSI ioctl backend in scsi/_scsi_linux.py
and the Windows direct pass-through backend in scsi/_scsi_windows.py),
together with the import-time backend selection in scsi/__init__.py, and
proves properties of the control-block encoding, the timeout unit
conversion, the status decoding and the OS-error propagation.

Modelling conventions:
- Python byte strings are lists of naturals (each entry one byte value).
- ctypes integer fields wrap modulo their width on assignment
  (c_ubyte mod 2^8, c_ushort mod 2^16, c_uint and ULONG mod 2^32);
  this wrapping behaviour was checked against CPython ctypes.
- ctypes fixed arrays (c_char times 16) reject byte strings longer than
  the array and zero-pad shorter ones.
- The OS boundary (os.open, ioctl, CreateFileW, DeviceIoControl,
  CloseHandle, GetLastError) is modelled by passing the values those
  calls would produce as explicit parameters.
- Python exceptions are the error side of an Except result.
-/

/-- The Python exceptions that the embedded code paths can raise. -/
inductive PyError where
  /-- AttributeError: the named object type has no attribute of the
  named name. -/
  | attributeError (objType attr : String)
  /-- ValueError, as raised by a ctypes fixed-size array on oversized
  assignment and by IntEnum on a non-member value. -/
  | valueError (message : String)
  /-- NotImplementedError with a plain message (module init path). -/
  | notImplementedError (message : String)
  /-- NotImplementedError raised by the Linux scsi_open for an outdated
  generic-SCSI driver; carries the major.minor.micro version triple
  that the source interpolates into its message. -/
  | outdatedDriver (major minor micro : Int)
  /-- OSError escaping from an ioctl call, with its errno. -/
  | osError (errno : Nat)
  /-- ctypes WinError built from a nonzero GetLastError code. -/
  | winError (code : Nat)
  deriving Repr, DecidableEq

/-- In-place write of the bytes of new into the region holding orig, as a
kernel driver writing through a ctypes pointer does: the region keeps its
original extent, initial bytes are replaced by new, and any tail beyond
the written bytes keeps its previous contents. -/
def writeInto (orig new : List Nat) : List Nat :=
  new.take orig.length ++ orig.drop new.length

theorem writeInto_length (orig new : List Nat) :
    (writeInto orig new).length = orig.length := by
  simp [writeInto]
  omega

namespace ScsiLinux

/-! Embedding of scsi/_scsi_linux.py. -/

def MAX_SENSE_SIZE : Nat := 32

def SG_INTERFACE_ID_ORIG : Int := 83

def SG_DXFER_NONE : Int := -1
def SG_DXFER_TO_DEV : Int := -2
def SG_DXFER_FROM_DEV : Int := -3

def SG_INFO_OK_MASK : Nat := 0x1
def SG_INFO_OK : Nat := 0x0
def SG_INFO_CHECK : Nat := 0x1

/-- The sg_io_hdr control block (class SGIOHeader in the source), with the
ctypes pointer fields (dxferp, cmdp, sbp) modelled by the byte contents of
the regions they point at, and usr_ptr (a never-used null pointer) by an
empty region. Integer fields hold the wrapped value stored in the ctypes
field of the corresponding width. -/
structure SGIOHeader where
  interface_id : Int
  dxfer_direction : Int
  cmd_len : Nat
  mx_sb_len : Nat
  iovec_count : Nat
  dxfer_len : Nat
  dxferp : List Nat
  cmdp : List Nat
  sbp : List Nat
  timeout : Nat
  flags : Nat
  pack_id : Int
  usr_ptr : List Nat
  status : Nat
  masked_status : Nat
  msg_status : Nat
  sb_len_wr : Nat
  host_status : Nat
  driver_status : Nat
  resid : Int
  duration : Nat
  info : Nat
  deriving Repr, DecidableEq

/-- The SGIOHeader constructed by execute_command from the caller
arguments: exactly the keyword arguments the source passes, with every
other field zero-initialised as ctypes does. c_ubyte fields wrap modulo
2^8 and c_uint fields modulo 2^32 on assignment. -/
def mkSGIOHeader (cdb buffer : List Nat) (timeout : Nat) (direction : Int) :
    SGIOHeader where
  interface_id := SG_INTERFACE_ID_ORIG
  dxfer_direction := direction
  cmd_len := cdb.length % 2 ^ 8
  mx_sb_len := MAX_SENSE_SIZE % 2 ^ 8
  iovec_count := 0
  dxfer_len := buffer.length % 2 ^ 32
  dxferp := buffer
  cmdp := cdb
  sbp := List.replicate MAX_SENSE_SIZE 0
  timeout := timeout % 2 ^ 32
  flags := 0
  pack_id := 0
  usr_ptr := []
  status := 0
  masked_status := 0
  msg_status := 0
  sb_len_wr := 0
  host_status := 0
  driver_status := 0
  resid := 0
  duration := 0
  info := 0

/-- What the SG_IO ioctl leaves behind for one call: either the ioctl
itself fails with an errno, or the driver writes data bytes into the
dxferp region and fills the result status fields of the header. -/
structure SgDeviceResult where
  ioctlError : Option Nat
  data : List Nat
  status : Nat
  host_status : Nat
  driver_status : Nat
  info : Nat
  deriving Repr, DecidableEq

/-- The header after a successful SG_IO ioctl: the driver has written into
the data region and stored the raw status fields (each wrapped to its
ctypes field width). -/
def applySgio (hdr : SGIOHeader) (dev : SgDeviceResult) : SGIOHeader :=
  { hdr with
    dxferp := writeInto hdr.dxferp dev.data
    status := dev.status % 2 ^ 8
    host_status := dev.host_status % 2 ^ 16
    driver_status := dev.driver_status % 2 ^ 16
    info := dev.info % 2 ^ 32 }

/-- check_for_errors from the source, at Python evaluation fidelity.
When the info flag reads abnormal, the first statement executed is
  status = SCSIStatus(sgio_hdr.status.value)
Reading the c_ubyte field status of a ctypes structure yields a plain
Python int, and int has no attribute named value, so this statement
raises AttributeError (int object has no attribute value) before any
status classification can happen. (Checked against CPython ctypes: a
c_ubyte field access returns int.) None of the SCSIStatus, DriverStatus
or HostStatus raise_if_bad dispatch below that line is reachable. -/
def check_for_errors (sgio_hdr : SGIOHeader) : Except PyError Unit :=
  if sgio_hdr.info &&& SG_INFO_OK_MASK ≠ SG_INFO_OK then
    Except.error (PyError.attributeError "int" "value")
  else
    Except.ok ()

/-- execute_command from the source: build the header from the caller
arguments, run the SG_IO ioctl (modelled by the dev parameter), then run
check_for_errors on the resulting header. Returns the contents of the
caller buffer region after the call (the source mutates the buffer in
place through dxferp and returns None; the caller reads the region). -/
def execute_command (device : Int) (cdb buffer : List Nat) (timeout : Nat)
    (direction : Int) (dev : SgDeviceResult) : Except PyError (List Nat) :=
  match dev.ioctlError with
  | some errno => Except.error (PyError.osError errno)
  | none =>
    let hdr := applySgio (mkSGIOHeader cdb buffer timeout direction) dev
    match check_for_errors hdr with
    | Except.error e => Except.error e
    | Except.ok () => Except.ok hdr.dxferp

/-- check_sg_version: unpack the integer reported by the
SG_GET_VERSION_NUM ioctl into (major, minor, micro). Python floor
division and modulo are Int.fdiv and Int.emod. -/
def check_sg_version (version : Int) : Int × Int × Int :=
  (Int.fdiv version 10000, Int.fdiv (Int.emod version 10000) 100,
    Int.emod version 100)

/-- scsi_open from the source, with the OS boundary explicit: device is
the file descriptor os.open returned and sg_version the integer the
SG_GET_VERSION_NUM ioctl reported. Fails for a major version below 3,
otherwise returns the descriptor. -/
def scsi_open (device : Int) (sg_version : Int) : Except PyError Int :=
  let ver := check_sg_version sg_version
  if ver.1 < 3 then
    Except.error (PyError.outdatedDriver ver.1 ver.2.1 ver.2.2)
  else
    Except.ok device

/-- scsi_read from the source: allocate a zero buffer of amount bytes,
execute with direction SG_DXFER_FROM_DEV, return the buffer. -/
def scsi_read (device : Int) (cdb : List Nat) (amount timeout : Nat)
    (dev : SgDeviceResult) : Except PyError (List Nat) :=
  execute_command device cdb (List.replicate amount 0) timeout
    SG_DXFER_FROM_DEV dev

/-- scsi_write from the source: execute the caller buffer with direction
SG_DXFER_TO_DEV, returning nothing. -/
def scsi_write (device : Int) (cdb buffer : List Nat) (timeout : Nat)
    (dev : SgDeviceResult) : Except PyError Unit :=
  (execute_command device cdb buffer timeout SG_DXFER_TO_DEV dev).map
    (fun _ => ())

end ScsiLinux

namespace ScsiWindows

/-! Embedding of scsi/_scsi_windows.py. -/

def MAX_SENSE_SIZE : Nat := 32

def IOCTL_SCSI_PASS_THROUGH_DIRECT : Nat := 0x4d014

def SCSI_IOCTL_DATA_OUT : Nat := 0
def SCSI_IOCTL_DATA_IN : Nat := 1
def SCSI_IOCTL_DATA_UNSPECIFIED : Nat := 2

/-- ctypes sizeof of the SCSIPassThroughDirect structure on a 64-bit
build: offsets 0 length, 2..8 the seven UCHAR fields, 12 and 16 the two
ULONG fields, 24 the 8-byte-aligned data_buffer pointer, 32
sense_info_offset, 36 the 16-byte cdb array, 52 the 32-byte sense
buffer, end 84, padded to pointer alignment. -/
def sptd_sizeof : Nat := 88

/-- header_size in execute_command: sizeof minus the trailing sense
region that the source appends to the reference struct. -/
def header_size : Nat := sptd_sizeof - MAX_SENSE_SIZE

/-- The SCSI_PASS_THROUGH_DIRECT control block (class
SCSIPassThroughDirect in the source), with the data_buffer pointer
modelled by the contents of the region it points at, and the two fixed
arrays (cdb, sense_buffer) by byte lists of their exact array size. -/
structure SCSIPassThroughDirect where
  length : Nat
  scsi_status : Nat
  path_id : Nat
  target_id : Nat
  lun : Nat
  cdb_length : Nat
  sense_info_length : Nat
  data_in : Nat
  data_transfer_length : Nat
  timeout_value : Nat
  data_buffer : List Nat
  sense_info_offset : Nat
  cdb : List Nat
  sense_buffer : List Nat
  deriving Repr, DecidableEq

/-- The control block constructed by execute_command from the caller
arguments. ctypes rejects a byte string longer than the 16-byte cdb
array with ValueError (the source message also names the two lengths)
and zero-pads a shorter one; USHORT, UCHAR and ULONG fields wrap to
their widths on assignment; unset fields are zero. -/
def mkSPTD (cdb buffer : List Nat) (timeout : Nat) (direction : Nat) :
    Except PyError SCSIPassThroughDirect :=
  if cdb.length > 16 then
    Except.error (PyError.valueError "bytes too long")
  else
    Except.ok
      { length := header_size % 2 ^ 16
        scsi_status := 0
        path_id := 0
        target_id := 0
        lun := 0
        cdb_length := cdb.length % 2 ^ 8
        sense_info_length := MAX_SENSE_SIZE % 2 ^ 8
        data_in := direction % 2 ^ 8
        data_transfer_length := buffer.length % 2 ^ 32
        timeout_value := timeout % 2 ^ 32
        data_buffer := buffer
        sense_info_offset := header_size % 2 ^ 32
        cdb := cdb ++ List.replicate (16 - cdb.length) 0
        sense_buffer := List.replicate MAX_SENSE_SIZE 0 }

/-- What one DeviceIoControl call leaves behind: the native BOOL return
value, the thread last-error value afterwards (GetLastError), and what
the driver wrote: a scsi status byte and sense bytes into the control
block copy handed to the kernel, and data bytes into the caller data
region. -/
structure WinDeviceResult where
  retval : Int
  lastError : Nat
  scsi_status : Nat
  sense_data : List Nat
  data : List Nat
  deriving Repr, DecidableEq

/-- raise_last_error from the source: raise WinError when GetLastError
is nonzero, otherwise do nothing. -/
def raise_last_error (last_error : Nat) : Except PyError Unit :=
  if last_error ≠ 0 then
    Except.error (PyError.winError last_error)
  else
    Except.ok ()

/-- device_io_control from the source: issue the native call, bind its
BOOL result to a local that is never read again, and classify by
raise_last_error alone. -/
def device_io_control (result : Int) (last_error : Nat) :
    Except PyError Unit :=
  raise_last_error last_error

/-- execute_command from the source: build the control block (ValueError
escapes if the cdb exceeds the 16-byte array), hand a byte copy of it to
DeviceIoControl, and classify by the last-error value alone. The block
copy after the call holds whatever scsi status byte and sense bytes the
driver stored, but these are never inspected (the source leaves that as
a TODO); the caller data region holds the driver data. Returns the data
region contents after the call. -/
def execute_command (handle : Int) (cdb buffer : List Nat) (timeout : Nat)
    (direction : Nat) (dev : WinDeviceResult) : Except PyError (List Nat) :=
  match mkSPTD cdb buffer timeout direction with
  | Except.error e => Except.error e
  | Except.ok hdr =>
    let post := { hdr with
      scsi_status := dev.scsi_status % 2 ^ 8
      sense_buffer := writeInto hdr.sense_buffer dev.sense_data
      data_buffer := writeInto hdr.data_buffer dev.data }
    match device_io_control dev.retval dev.lastError with
    | Except.error e => Except.error e
    | Except.ok () => Except.ok post.data_buffer

/-- scsi_open from the source, with the OS boundary explicit:
create_file_retval is whatever handle value CreateFileW returned and
last_error the GetLastError value after it. The handle value itself is
never validated; only the last-error value decides. -/
def scsi_open (create_file_retval : Int) (last_error : Nat) :
    Except PyError Int :=
  match raise_last_error last_error with
  | Except.error e => Except.error e
  | Except.ok () => Except.ok create_file_retval

/-- scsi_read from the source: allocate a zero buffer of amount bytes,
execute with the caller timeout floor-divided by 1000 and direction
SCSI_IOCTL_DATA_IN, return the buffer. -/
def scsi_read (device : Int) (cdb : List Nat) (amount timeout : Nat)
    (dev : WinDeviceResult) : Except PyError (List Nat) :=
  execute_command device cdb (List.replicate amount 0) (timeout / 1000)
    SCSI_IOCTL_DATA_IN dev

/-- scsi_write from the source: execute the caller buffer with the
caller timeout floor-divided by 1000 and direction SCSI_IOCTL_DATA_OUT,
returning nothing. -/
def scsi_write (device : Int) (cdb buffer : List Nat) (timeout : Nat)
    (dev : WinDeviceResult) : Except PyError Unit :=
  (execute_command device cdb buffer (timeout / 1000) SCSI_IOCTL_DATA_OUT
    dev).map (fun _ => ())

/-- scsi_close from the source: call CloseHandle, ignore its BOOL
result (close_handle_retval), and classify by the last-error value. -/
def scsi_close (close_handle_retval : Int) (last_error : Nat) :
    Except PyError Unit :=
  raise_last_error last_error

/-- The timeout_value field of the control block the encoder produces
for the given arguments, when encoding succeeds (none when the CDB does
not fit the 16-byte array). Used to observe the encoded field at
concrete inputs. -/
def encodedTimeoutValue (cdb buffer : List Nat) (timeout direction : Nat) :
    Option Nat :=
  match mkSPTD cdb buffer timeout direction with
  | Except.ok hdr => some hdr.timeout_value
  | Except.error _ => none

end ScsiWindows

namespace ScsiInit

/-! Embedding of scsi/__init__.py: import-time backend selection. -/

/-- The fields of platform.uname() that the module consults. -/
structure UnameResult where
  system : String
  release : String
  deriving Repr, DecidableEq

/-- The two physical backends. -/
inductive Backend where
  | linux
  | windows
  deriving Repr, DecidableEq

/-- The names a backend module exports (its module-level list of public
names); both backend files list the same four operations. -/
def backendExports (b : Backend) : List String :=
  match b with
  | Backend.linux => ["scsi_open", "scsi_read", "scsi_write", "scsi_close"]
  | Backend.windows => ["scsi_open", "scsi_read", "scsi_write", "scsi_close"]

/-- The public names of the scsi package itself. -/
def scsiModuleExports : List String :=
  ["scsi_open", "scsi_read", "scsi_write", "scsi_close"]

/-- The import-time dispatch of scsi/__init__.py: pick the Linux backend
when uname reports Linux, the Windows backend when uname reports Windows
with release 10, and otherwise raise NotImplementedError before any
backend is bound. -/
def selectBackend (os_info : UnameResult) : Except PyError Backend :=
  if os_info.system = "Linux" then
    Except.ok Backend.linux
  else if os_info.system = "Windows" ∧ os_info.release = "10" then
    Except.ok Backend.windows
  else
    Except.error (PyError.notImplementedError "Your system is not supported.")

end ScsiInit

/-!
Claim theorems.
-/

/-- C1: the claim says that for every raw outcome with the abnormal flag
set, the status decoder classifies by the fixed priority order, raising
ScsiStatusError whenever the SCSI status is non-good. On the code this
fails: as soon as the abnormal flag is set, check_for_errors evaluates
sgio_hdr.status.value, and the ctypes field read yields a plain int with
no attribute named value, so an AttributeError escapes before any
classification. This theorem evaluates the embedded code at such a
failing input: abnormal flag set, SCSI status CHECK_CONDITION (0x02),
driver and host status clear; the claim says the result should be the
classified SCSI-status error, the code raises AttributeError. -/
theorem c1_linux_decoder_dies_before_scsi_status_classification :
    ScsiLinux.execute_command 3 [18, 0, 0, 0, 255, 0] (List.replicate 4 0)
      5000 ScsiLinux.SG_DXFER_FROM_DEV
      { ioctlError := none, data := [1, 2, 3, 4], status := 2,
        host_status := 0, driver_status := 0, info := 1 } =
    Except.error (PyError.attributeError "int" "value") := by
  rfl

/-- C3: the claim says that when the abnormal flag is set but all three
status layers read clean, execute raises the generic unclassified
SCSIError (and never returns success). On the code the second half holds
but the first does not: the same sgio_hdr.status.value read fails first,
so the error that escapes is AttributeError, not the generic SCSIError
with the unknown-error message. This theorem evaluates the embedded code
at exactly that input: abnormal flag set, SCSI status good, driver and
host status ok. -/
theorem c3_linux_all_clean_abnormal_raises_attribute_error_not_scsi_error :
    ScsiLinux.execute_command 3 [18, 0, 0, 0, 255, 0] (List.replicate 4 0)
      5000 ScsiLinux.SG_DXFER_FROM_DEV
      { ioctlError := none, data := [], status := 0,
        host_status := 0, driver_status := 0, info := 1 } =
    Except.error (PyError.attributeError "int" "value") := by
  rfl

/-- C4: on the Linux backend, open fails with the outdated-driver error
exactly when the major component of the reported driver version (the
reported integer floor-divided by 10000) is below 3, and for major 3 or
above it returns the handle unchanged. -/
theorem c4_linux_open_fails_iff_driver_major_below_three
    (device version : Int) :
    (Int.fdiv version 10000 < 3 →
      ScsiLinux.scsi_open device version =
        Except.error (PyError.outdatedDriver (Int.fdiv version 10000)
          (Int.fdiv (Int.emod version 10000) 100) (Int.emod version 100))) ∧
    (3 ≤ Int.fdiv version 10000 →
      ScsiLinux.scsi_open device version = Except.ok device) ∧
    ((ScsiLinux.scsi_open device version).isOk ↔
      3 ≤ Int.fdiv version 10000) := by
  unfold ScsiLinux.scsi_open ScsiLinux.check_sg_version
  refine ⟨fun h => by simp [h], fun h => by rw [if_neg (Int.not_lt.mpr h)],
    ?_⟩
  by_cases h : Int.fdiv version 10000 < 3
  · rw [if_pos h]
    simp [Except.isOk, Except.toBool, Int.not_le.mpr h]
  · rw [if_neg h]
    simp [Except.isOk, Except.toBool, Int.not_lt.mp h]

/-- Witness for C4: a driver reporting version 3.1.2 (integer 30102)
opens successfully, and one reporting 2.0.0 (integer 20000) fails with
the outdated-driver error. -/
theorem c4_linux_open_fails_iff_driver_major_below_three_witness :
    ScsiLinux.scsi_open 7 30102 = Except.ok 7 ∧
    ScsiLinux.scsi_open 7 20000 =
      Except.error (PyError.outdatedDriver 2 0 0) := by
  exact ⟨(c4_linux_open_fails_iff_driver_major_below_three 7 30102).2.1
      (by decide),
    (c4_linux_open_fails_iff_driver_major_below_three 7 20000).1
      (by decide)⟩

/-- C8: the import-time backend selection succeeds exactly on Linux or
on Windows with release 10, binds the Linux backend on Linux and the
Windows backend on Windows 10, raises the unsupported-system
NotImplementedError on every other platform before any backend is
bound, and whichever backend is selected exports exactly the four
public operations of the package. -/
theorem c8_backend_selection_by_platform (u : ScsiInit.UnameResult) :
    ((ScsiInit.selectBackend u).isOk ↔
      (u.system = "Linux" ∨ (u.system = "Windows" ∧ u.release = "10"))) ∧
    (u.system = "Linux" →
      ScsiInit.selectBackend u = Except.ok ScsiInit.Backend.linux) ∧
    (u.system = "Windows" → u.release = "10" →
      ScsiInit.selectBackend u = Except.ok ScsiInit.Backend.windows) ∧
    (¬(u.system = "Linux" ∨ (u.system = "Windows" ∧ u.release = "10")) →
      ScsiInit.selectBackend u =
        Except.error
          (PyError.notImplementedError "Your system is not supported.")) ∧
    (∀ b, ScsiInit.selectBackend u = Except.ok b →
      ScsiInit.backendExports b = ScsiInit.scsiModuleExports) := by
  unfold ScsiInit.selectBackend
  by_cases h1 : u.system = "Linux" <;>
    by_cases h2 : u.system = "Windows" <;>
    by_cases h3 : u.release = "10" <;>
    simp_all [ScsiInit.backendExports, ScsiInit.scsiModuleExports,
      Except.isOk, Except.toBool]

/-- Witness for C8: concrete platforms exercising each branch of the
selection, with the exported-names conclusion instantiated for the
backend that Linux selects. -/
theorem c8_backend_selection_by_platform_witness :
    ScsiInit.selectBackend ⟨"Linux", "6.1"⟩ =
      Except.ok ScsiInit.Backend.linux ∧
    ScsiInit.selectBackend ⟨"Windows", "10"⟩ =
      Except.ok ScsiInit.Backend.windows ∧
    ScsiInit.selectBackend ⟨"Darwin", "23"⟩ =
      Except.error
        (PyError.notImplementedError "Your system is not supported.") ∧
    ScsiInit.backendExports ScsiInit.Backend.linux =
      ScsiInit.scsiModuleExports := by
  exact ⟨(c8_backend_selection_by_platform ⟨"Linux", "6.1"⟩).2.1 rfl,
    (c8_backend_selection_by_platform ⟨"Windows", "10"⟩).2.2.1 rfl rfl,
    (c8_backend_selection_by_platform ⟨"Darwin", "23"⟩).2.2.2.1 (by decide),
    (c8_backend_selection_by_platform ⟨"Linux", "6.1"⟩).2.2.2.2
      ScsiInit.Backend.linux
      ((c8_backend_selection_by_platform ⟨"Linux", "6.1"⟩).2.1 rfl)⟩

/-- C9: on the Windows backend, open, the DeviceIoControl wrapper and
close classify success solely by the thread last-error value after the
native call: each succeeds exactly when that value is zero, and the
native return value (handle or BOOL) plays no part in the outcome, as
witnessed by the results being identical across any two return
values. -/
theorem c9_windows_outcome_decided_by_last_error_alone
    (ret ret2 : Int) (lastErr : Nat) :
    ((ScsiWindows.scsi_open ret lastErr).isOk ↔ lastErr = 0) ∧
    ((ScsiWindows.scsi_close ret lastErr).isOk ↔ lastErr = 0) ∧
    ((ScsiWindows.device_io_control ret lastErr).isOk ↔ lastErr = 0) ∧
    (ScsiWindows.scsi_open ret lastErr).isOk =
      (ScsiWindows.scsi_open ret2 lastErr).isOk ∧
    ScsiWindows.scsi_close ret lastErr =
      ScsiWindows.scsi_close ret2 lastErr ∧
    ScsiWindows.device_io_control ret lastErr =
      ScsiWindows.device_io_control ret2 lastErr := by
  unfold ScsiWindows.scsi_open ScsiWindows.scsi_close
    ScsiWindows.device_io_control ScsiWindows.raise_last_error
  by_cases h : lastErr = 0 <;> simp [h, Except.isOk, Except.toBool]

/-- C2: on the Windows backend the outcome of execute is decided purely
by the OS-level last-error value: for any scsi status byte and any sense
bytes the driver leaves in the control block copy, the result is
unchanged, and whenever the last-error value is zero the call returns
the data region with no error, because neither the SCSI status nor the
driver or host status nor the sense data is ever inspected on this
backend. -/
theorem c2_windows_execute_never_inspects_status_or_sense
    (handle : Int) (cdb buffer : List Nat) (t dir : Nat)
    (retval : Int) (lastErr s s2 : Nat) (sd sd2 data : List Nat)
    (hc : cdb.length ≤ 16) :
    ScsiWindows.execute_command handle cdb buffer t dir
        ⟨retval, lastErr, s, sd, data⟩ =
      ScsiWindows.execute_command handle cdb buffer t dir
        ⟨retval, lastErr, s2, sd2, data⟩ ∧
    (lastErr = 0 →
      ScsiWindows.execute_command handle cdb buffer t dir
          ⟨retval, lastErr, s, sd, data⟩ =
        Except.ok (writeInto buffer data)) := by
  unfold ScsiWindows.execute_command ScsiWindows.mkSPTD
    ScsiWindows.device_io_control ScsiWindows.raise_last_error
  rw [if_neg (by omega)]
  constructor
  · by_cases h : lastErr = 0 <;> simp [h]
  · intro h
    simp [h]

/-- Witness for C2: a one-byte CDB, a two-byte buffer, an arbitrary
nonzero scsi status byte and nonempty sense data, last-error zero: the
call succeeds and returns the driver data. -/
theorem c2_windows_execute_never_inspects_status_or_sense_witness :
    ScsiWindows.execute_command 3 [1] [0, 0] 5 1 ⟨1, 0, 2, [9], [7, 8]⟩ =
      Except.ok [7, 8] :=
  (c2_windows_execute_never_inspects_status_or_sense 3 [1] [0, 0] 5 1 1 0
    2 2 [9] [9] [7, 8] (by decide)).2 rfl

/-- C5: when the passthrough call reports a fully clean outcome (ioctl
succeeded, abnormal flag clear, SCSI, driver and host status all ok on
Linux; last-error zero on Windows), scsi_read returns a buffer of
exactly the requested number of bytes, on both backends, for every
amount and every timeout. -/
theorem c5_read_returns_exactly_amount_bytes
    (handle : Int) (amount timeout : Nat) (cdbL : List Nat)
    (devL : ScsiLinux.SgDeviceResult) (cdbW : List Nat)
    (devW : ScsiWindows.WinDeviceResult)
    (hio : devL.ioctlError = none) (hinfo : devL.info % 2 = 0)
    (hst : devL.status = 0) (hdrv : devL.driver_status &&& 15 = 0)
    (hho : devL.host_status = 0)
    (hwerr : devW.lastError = 0) (hwc : cdbW.length ≤ 16) :
    (∃ out, ScsiLinux.scsi_read handle cdbL amount timeout devL =
        Except.ok out ∧ out.length = amount) ∧
    (∃ out, ScsiWindows.scsi_read handle cdbW amount timeout devW =
        Except.ok out ∧ out.length = amount) := by
  constructor
  · refine ⟨writeInto (List.replicate amount 0) devL.data, ?_, ?_⟩
    · have hflag : devL.info % 4294967296 &&& ScsiLinux.SG_INFO_OK_MASK =
          ScsiLinux.SG_INFO_OK := by
        have hmm : devL.info % 4294967296 % 2 = 0 := by
          rw [Nat.mod_mod_of_dvd _ (by norm_num : (2 : Nat) ∣ 4294967296)]
          exact hinfo
        simpa [ScsiLinux.SG_INFO_OK_MASK, ScsiLinux.SG_INFO_OK,
          Nat.and_one_is_mod] using hmm
      unfold ScsiLinux.scsi_read ScsiLinux.execute_command
      rw [hio]
      simp [ScsiLinux.check_for_errors, ScsiLinux.applySgio,
        ScsiLinux.mkSGIOHeader, hflag]
    · rw [writeInto_length, List.length_replicate]
  · refine ⟨writeInto (List.replicate amount 0) devW.data, ?_, ?_⟩
    · unfold ScsiWindows.scsi_read ScsiWindows.execute_command
        ScsiWindows.mkSPTD ScsiWindows.device_io_control
        ScsiWindows.raise_last_error
      rw [if_neg (by omega)]
      simp [hwerr]
    · rw [writeInto_length, List.length_replicate]

/-- Witness for C5: a clean four-byte read with a 5000 ms timeout on
each backend yields a four-byte buffer. -/
theorem c5_read_returns_exactly_amount_bytes_witness :
    (∃ out, ScsiLinux.scsi_read 3 [18, 0, 0, 0, 255, 0] 4 5000
        ⟨none, [9, 9], 0, 0, 0, 0⟩ = Except.ok out ∧ out.length = 4) ∧
    (∃ out, ScsiWindows.scsi_read 3 [18, 0] 4 5000 ⟨1, 0, 0, [], [7]⟩ =
        Except.ok out ∧ out.length = 4) :=
  c5_read_returns_exactly_amount_bytes 3 4 5000 [18, 0, 0, 0, 255, 0]
    ⟨none, [9, 9], 0, 0, 0, 0⟩ [18, 0] ⟨1, 0, 0, [], [7]⟩ (by decide)
    (by decide) (by decide) (by decide) (by decide) (by decide) (by decide)

/-- C6: each backend converts the caller timeout (milliseconds) to its
native unit at encode time: the Linux header carries the millisecond
value unchanged in its timeout field, while the Windows control block
carries the value floor-divided by 1000 (whole seconds) in its
timeout_value field; the last two conjuncts pin down that scsi_read on
each backend passes exactly that converted value into the encoder. -/
theorem c6_timeout_ms_on_linux_whole_seconds_on_windows
    (cdbL bufL : List Nat) (dL : Int) (cdbW bufW : List Nat) (dW : Nat)
    (t : Nat) (ht : t < 2 ^ 32) (hc : cdbW.length ≤ 16) :
    (ScsiLinux.mkSGIOHeader cdbL bufL t dL).timeout = t ∧
    (∃ hdr, ScsiWindows.mkSPTD cdbW bufW (t / 1000) dW = Except.ok hdr ∧
      hdr.timeout_value = t / 1000) ∧
    (∀ (handle : Int) (amount : Nat) (dev : ScsiLinux.SgDeviceResult),
      ScsiLinux.scsi_read handle cdbL amount t dev =
        ScsiLinux.execute_command handle cdbL (List.replicate amount 0) t
          ScsiLinux.SG_DXFER_FROM_DEV dev) ∧
    (∀ (handle : Int) (amount : Nat) (dev : ScsiWindows.WinDeviceResult),
      ScsiWindows.scsi_read handle cdbW amount t dev =
        ScsiWindows.execute_command handle cdbW (List.replicate amount 0)
          (t / 1000) ScsiWindows.SCSI_IOCTL_DATA_IN dev) := by
  refine ⟨?_, ?_, fun _ _ _ => rfl, fun _ _ _ => rfl⟩
  · show t % 2 ^ 32 = t
    omega
  · unfold ScsiWindows.mkSPTD
    rw [if_neg (by omega)]
    refine ⟨_, rfl, ?_⟩
    show t / 1000 % 2 ^ 32 = t / 1000
    omega

/-- Witness for C6: a 5000 ms caller timeout is encoded as 5000 in the
Linux header and as 5 whole seconds in the Windows control block. -/
theorem c6_timeout_ms_on_linux_whole_seconds_on_windows_witness :
    (ScsiLinux.mkSGIOHeader [0] [1, 2] 5000 ScsiLinux.SG_DXFER_FROM_DEV
      ).timeout = 5000 ∧
    (∃ hdr, ScsiWindows.mkSPTD [1] [] (5000 / 1000) 1 = Except.ok hdr ∧
      hdr.timeout_value = 5000 / 1000) :=
  ⟨(c6_timeout_ms_on_linux_whole_seconds_on_windows [0] [1, 2]
      ScsiLinux.SG_DXFER_FROM_DEV [1] [] 1 5000 (by decide) (by decide)).1,
    (c6_timeout_ms_on_linux_whole_seconds_on_windows [0] [1, 2]
      ScsiLinux.SG_DXFER_FROM_DEV [1] [] 1 5000 (by decide)
      (by decide)).2.1⟩

/-- C7 counterexample: the claim that the encoders always write length
fields equal to the supplied lengths and place the bytes without
truncation fails at concrete inputs. On Windows a 17-byte CDB does not
fit the 16-byte ctypes cdb array: no control block is produced at all
and a ValueError escapes instead. On Linux the cmd_len field is a
c_ubyte, so a 256-byte CDB is encoded with cmd_len 0, not 256. -/
theorem c7_lengths_not_always_encoded_exactly :
    ScsiWindows.mkSPTD (List.replicate 17 0) [1, 2] 5000 1 =
      Except.error (PyError.valueError "bytes too long") ∧
    (ScsiWindows.mkSPTD (List.replicate 17 0) [1, 2] 5000 1).isOk =
      false ∧
    (ScsiLinux.mkSGIOHeader (List.replicate 256 0) []
        0 ScsiLinux.SG_DXFER_TO_DEV).cmd_len = 0 := by
  refine ⟨rfl, rfl, ?_⟩
  show (List.replicate 256 0).length % 2 ^ 8 = 0
  rw [List.length_replicate]
  norm_num

/-- C7 (amended): whenever the supplied lengths fit the native fields
(CDB shorter than 256 bytes and buffer shorter than 2^32 bytes on
Linux; CDB of at most the 16-byte array and buffer shorter than 2^32
bytes on Windows), the encoders write length fields equal to the
supplied lengths exactly and place the CDB bytes and the TO_DEVICE data
bytes unmodified (the Windows cdb array is zero-padded past the CDB
length). -/
theorem c7_lengths_encoded_exactly_within_native_ranges
    (cdbL bufL : List Nat) (tL : Nat) (dL : Int)
    (cdbW bufW : List Nat) (tW dW : Nat)
    (hcl : cdbL.length < 2 ^ 8) (hbl : bufL.length < 2 ^ 32)
    (hcw : cdbW.length ≤ 16) (hbw : bufW.length < 2 ^ 32) :
    ((ScsiLinux.mkSGIOHeader cdbL bufL tL dL).cmd_len = cdbL.length ∧
      (ScsiLinux.mkSGIOHeader cdbL bufL tL dL).dxfer_len = bufL.length ∧
      (ScsiLinux.mkSGIOHeader cdbL bufL tL dL).cmdp = cdbL ∧
      (ScsiLinux.mkSGIOHeader cdbL bufL tL dL).dxferp = bufL) ∧
    (∃ hdr, ScsiWindows.mkSPTD cdbW bufW tW dW = Except.ok hdr ∧
      hdr.cdb_length = cdbW.length ∧
      hdr.data_transfer_length = bufW.length ∧
      hdr.cdb.take cdbW.length = cdbW ∧
      hdr.data_buffer = bufW) := by
  refine ⟨⟨?_, ?_, rfl, rfl⟩, ?_⟩
  · show cdbL.length % 2 ^ 8 = cdbL.length
    omega
  · show bufL.length % 2 ^ 32 = bufL.length
    omega
  · unfold ScsiWindows.mkSPTD
    rw [if_neg (by omega)]
    refine ⟨_, rfl, ?_, ?_, ?_, rfl⟩
    · show cdbW.length % 2 ^ 8 = cdbW.length
      omega
    · show bufW.length % 2 ^ 32 = bufW.length
      omega
    · show (cdbW ++ List.replicate (16 - cdbW.length) 0).take cdbW.length =
        cdbW
      rw [List.take_left]

/-- Witness for C7 (amended): a three-byte CDB and one-byte buffer on
Linux, a two-byte CDB and one-byte buffer on Windows, all encoded
exactly. -/
theorem c7_lengths_encoded_exactly_within_native_ranges_witness :
    ((ScsiLinux.mkSGIOHeader [1, 2, 3] [4] 0 ScsiLinux.SG_DXFER_TO_DEV
        ).cmd_len = 3 ∧
      (ScsiLinux.mkSGIOHeader [1, 2, 3] [4] 0 ScsiLinux.SG_DXFER_TO_DEV
        ).dxfer_len = 1 ∧
      (ScsiLinux.mkSGIOHeader [1, 2, 3] [4] 0 ScsiLinux.SG_DXFER_TO_DEV
        ).cmdp = [1, 2, 3] ∧
      (ScsiLinux.mkSGIOHeader [1, 2, 3] [4] 0 ScsiLinux.SG_DXFER_TO_DEV
        ).dxferp = [4]) ∧
    (∃ hdr, ScsiWindows.mkSPTD [5, 6] [7] 0 0 = Except.ok hdr ∧
      hdr.cdb_length = 2 ∧
      hdr.data_transfer_length = 1 ∧
      hdr.cdb.take 2 = [5, 6] ∧
      hdr.data_buffer = [7]) :=
  c7_lengths_encoded_exactly_within_native_ranges [1, 2, 3] [4] 0
    ScsiLinux.SG_DXFER_TO_DEV [5, 6] [7] 0 0 (by decide) (by decide)
    (by decide) (by decide)

/-- C10: the Windows backend converts the caller timeout to seconds by
floor division by 1000, so the encoded timeout_value is exactly the
quotient, and for every caller timeout below 1000 ms the encoded value
is 0: any sub-second remainder is discarded. -/
theorem c10_windows_timeout_floor_division_discards_subsecond_part
    (t : Nat) (cdb buf : List Nat) (dir : Nat)
    (hc : cdb.length ≤ 16) (ht : t / 1000 < 2 ^ 32) :
    (∃ hdr, ScsiWindows.mkSPTD cdb buf (t / 1000) dir = Except.ok hdr ∧
      hdr.timeout_value = t / 1000) ∧
    (t < 1000 →
      ∃ hdr, ScsiWindows.mkSPTD cdb buf (t / 1000) dir = Except.ok hdr ∧
        hdr.timeout_value = 0) := by
  unfold ScsiWindows.mkSPTD
  rw [if_neg (by omega)]
  constructor
  · refine ⟨_, rfl, ?_⟩
    show t / 1000 % 2 ^ 32 = t / 1000
    omega
  · intro hlt
    refine ⟨_, rfl, ?_⟩
    show t / 1000 % 2 ^ 32 = 0
    omega

/-- Witness for C10: a caller timeout of 999 ms is encoded as 0 whole
seconds in the Windows control block. -/
theorem c10_windows_timeout_floor_division_witness :
    ∃ hdr, ScsiWindows.mkSPTD [1] [] (999 / 1000) 1 = Except.ok hdr ∧
      hdr.timeout_value = 0 :=
  (c10_windows_timeout_floor_division_discards_subsecond_part 999 [1] []
    1 (by decide) (by decide)).2 (by decide)

/-- C6 counterexample: the claim that each backend encodes the converted
caller timeout for every caller-supplied value fails at the 32-bit
native field width. At t = 2^32 the Linux c_uint timeout field encodes
0, not the millisecond value unchanged; and at t = 1000 * 2^32 (whose
whole-second quotient is 2^32) the Windows ULONG timeout_value field
encodes 0, not the quotient. -/
theorem c6_timeout_not_encoded_unchanged_at_field_width :
    (ScsiLinux.mkSGIOHeader [1] [2] 4294967296
        ScsiLinux.SG_DXFER_FROM_DEV).timeout = 0 ∧
    (ScsiLinux.mkSGIOHeader [1] [2] 4294967296
        ScsiLinux.SG_DXFER_FROM_DEV).timeout ≠ 4294967296 ∧
    ScsiWindows.encodedTimeoutValue [1] [] (4294967296000 / 1000) 1 =
      some 0 ∧
    ScsiWindows.encodedTimeoutValue [1] [] (4294967296000 / 1000) 1 ≠
      some (4294967296000 / 1000) := by
  exact ⟨by decide, by decide, by decide, by decide⟩

/-- C10 counterexample: the general half of the claim, that the encoded
timeout_value always equals the floor quotient of the caller timeout by
1000, fails once that quotient exceeds the ULONG field width: at
t = 1000 * 2^32 the quotient is 2^32, but the field encodes 0. (The
sub-second headline of the claim is unaffected: for t < 1000 the
quotient 0 always fits.) -/
theorem c10_encoded_timeout_not_floor_quotient_at_field_width :
    ScsiWindows.encodedTimeoutValue [2] [] (4294967296000 / 1000) 0 =
      some 0 ∧
    ScsiWindows.encodedTimeoutValue [2] [] (4294967296000 / 1000) 0 ≠
      some (4294967296000 / 1000) := by
  exact ⟨by decide, by decide⟩
